import Mathlib

/-!
Shallow embedding of the Empresario backend server (the Express application:
the in-memory OTP store with its send/verify handlers, and the registration
handler). Timestamps are epoch milliseconds, modelled as `Int` so that the
JavaScript subtractions `now - entry.windowStartAt` and `now - entry.lastSentAt`
behave exactly as in the source. Configuration values come from parsed
environment variables with positive defaults and are modelled as `Nat`.
-/

namespace Empresario

/-- Configuration of the OTP lifecycle, read from the environment at startup:
OTP_LENGTH (default 6), OTP_TTL_SECONDS (default 600),
OTP_RATE_LIMIT_WINDOW_SECONDS (default 900), OTP_MAX_PER_WINDOW (default 5),
OTP_MIN_RESEND_INTERVAL_SECONDS (default 60). -/
structure OtpConfig where
  otpLength : Nat
  otpTtlSeconds : Nat
  rateWindowSeconds : Nat
  rateMaxPerWindow : Nat
  minResendIntervalSeconds : Nat
deriving Repr, DecidableEq

/-- The default configuration values from the source. -/
def defaultConfig : OtpConfig :=
  { otpLength := 6, otpTtlSeconds := 600, rateWindowSeconds := 900,
    rateMaxPerWindow := 5, minResendIntervalSeconds := 60 }

/-- One entry of the in-memory map `otpStore`, keyed by email:
`\x7b code, expiresAt, lastSentAt, windowStartAt, sentCountInWindow \x7d`.
`code` is nullable (cleared on successful verification). -/
structure OtpRecord where
  code : Option String
  expiresAt : Int
  lastSentAt : Int
  windowStartAt : Int
  sentCountInWindow : Nat
deriving Repr, DecidableEq

/-- The per-identity store state: `none` when `otpStore` has no entry for the
email, `some e` when it maps the email to record `e`. Entries for distinct
emails are independent, so each handler is modelled on one identity's entry. -/
abbrev Store := Option OtpRecord

/-- The code of the entry currently stored for an identity, if any. -/
def storedCode : Store → Option String
  | none => none
  | some e => e.code

/-- The list of characters of the string constant
literal of ten digits indexed by `generateOtp`. -/
def digitChars : List Char :=
  ['0', '1', '2', '3', '4', '5', '6', '7', '8', '9']

/-- Indexing `digitChars` at a position below ten, as the source does with
`digits[Math.floor(Math.random() * 10)]`. -/
def digitChar (d : Fin 10) : Char :=
  digitChars.get (Fin.cast (by decide) d)

/-- `generateOtp(length)`: builds a string of `length` characters, each the
digit selected by one uniform draw. The stream of draws
`Math.floor(Math.random() * 10)` is the oracle `rand : Nat → Fin 10`,
consulted once per position. -/
def generateOtp (length : Nat) (rand : Nat → Fin 10) : String :=
  ⟨(List.range length).map fun i => digitChar (rand i)⟩

/-- The object handed to `sendEmail` in the send handler. `toAddr` embeds the
source field named after the destination address. -/
structure EmailMsg where
  toAddr : String
  subject : String
  text : String
  html : String
deriving Repr, DecidableEq

/-- Builds the message of the send handler: subject, text and html with the
code and the TTL in minutes (`Math.floor(otpTtlSeconds / 60)`) interpolated. -/
def mkOtpEmail (emailAddr : String) (cfg : OtpConfig) (code : String) : EmailMsg :=
  { toAddr := emailAddr
    subject := "Your Empresario verification code"
    text := "Your verification code is " ++ code ++ ". It expires in "
      ++ toString (cfg.otpTtlSeconds / 60) ++ " minutes."
    html := "<p>Your verification code is <b>" ++ code ++ "</b>.</p><p>It expires in "
      ++ toString (cfg.otpTtlSeconds / 60) ++ " minutes.</p>" }

/-- Outcome of `POST /api/otp/send`, by response: 400 Invalid email,
429 Too many OTP requests, 429 Please wait before requesting another OTP,
200 ok, and the catch-all 500 Failed to send OTP (the `sendEmail` call threw). -/
inductive SendResp
  | invalidEmail
  | rateLimited
  | tooSoon
  | ok
  | sendFailure
deriving Repr, DecidableEq

/-- Result of one send-handler call on one identity: the HTTP response, the
entry stored for that identity afterwards, and the message handed to the
email collaborator, when one was. -/
structure SendOutcome where
  resp : SendResp
  store : Store
  email : Option EmailMsg
deriving Repr, DecidableEq

/-- The default entry built when `otpStore.get(email)` is undefined:
`\x7b code: null, expiresAt: 0, lastSentAt: 0, windowStartAt: now,
sentCountInWindow: 0 \x7d`. -/
def freshEntry (now : Int) : OtpRecord :=
  { code := none, expiresAt := 0, lastSentAt := 0, windowStartAt := now,
    sentCountInWindow := 0 }

/-- The window reset at the top of the send handler: if
`now - entry.windowStartAt > rateWindowSeconds * 1000` the window restarts at
`now` with a zero count; otherwise the entry is untouched. -/
def resetWindow (cfg : OtpConfig) (now : Int) (e : OtpRecord) : OtpRecord :=
  if now - e.windowStartAt > (cfg.rateWindowSeconds : Int) * 1000 then
    { e with windowStartAt := now, sentCountInWindow := 0 }
  else e

/-- `POST /api/otp/send` on one identity's entry. `emailValid` is the result
of the regular-expression test on the request email; `code` is the value
`generateOtp(otpLength)` returned; `emailOk` tells whether the awaited
`sendEmail` resolved (`false`: it threw and the catch-all answered 500).
JavaScript detail made explicit: `otpStore.get` returns the stored object
itself, so when an entry already exists the in-place window reset persists
even on the two early 429 returns; a fresh entry is only persisted by the
`otpStore.set` after all checks pass. -/
def sendHandler (cfg : OtpConfig) (now : Int) (store : Store) (code : String)
    (emailOk : Bool) (emailAddr : String) (emailValid : Bool) : SendOutcome :=
  if ¬ emailValid then ⟨.invalidEmail, store, none⟩ else
  let entry := resetWindow cfg now (store.getD (freshEntry now))
  let storeAfterReset : Store := if store.isSome then some entry else none
  if entry.sentCountInWindow ≥ cfg.rateMaxPerWindow then
    ⟨.rateLimited, storeAfterReset, none⟩
  else if now - entry.lastSentAt < (cfg.minResendIntervalSeconds : Int) * 1000 then
    ⟨.tooSoon, storeAfterReset, none⟩
  else
    let entry' := { entry with
      code := some code
      expiresAt := now + (cfg.otpTtlSeconds : Int) * 1000
      lastSentAt := now
      sentCountInWindow := entry.sentCountInWindow + 1 }
    let msg := mkOtpEmail emailAddr cfg code
    if emailOk then ⟨.ok, some entry', some msg⟩
    else ⟨.sendFailure, some entry', some msg⟩

/-- Outcome of `POST /api/otp/verify`, by response: 400 email and otp
required, 400 OTP not found, 400 OTP expired, 400 Invalid OTP, 200 ok. -/
inductive VerifyResp
  | invalidInput
  | notFound
  | expired
  | mismatch
  | ok
deriving Repr, DecidableEq

/-- `POST /api/otp/verify` on one identity's entry. A string field of the
JSON body is falsy exactly when it is empty. Checks in source order: missing
email or otp; no entry or falsy code — the guard on the nullable code field
is a JavaScript truthiness test, so it catches both a null code and a stored
empty-string code; `now > entry.expiresAt`; candidate and stored code
unequal as strings; otherwise the code is cleared and the call succeeds. -/
def verifyHandler (now : Int) (store : Store) (email otp : String) :
    VerifyResp × Store :=
  if email = "" ∨ otp = "" then (.invalidInput, store)
  else
    match store with
    | none => (.notFound, none)
    | some entry =>
      match entry.code with
      | none => (.notFound, some entry)
      | some c =>
        if c = "" then (.notFound, some entry)
        else if now > entry.expiresAt then (.expired, some entry)
        else if otp ≠ c then (.mismatch, some entry)
        else (.ok, some { entry with code := none })

/-- The JSON body of `POST /api/register`: a mapping from field name to
string value, as the spec's submission payload. Lookup takes the first
binding, as a JSON object has unique keys. -/
abbrev Payload := List (String × String)

/-- `body.field || two-quote-empty-string`: the value bound to the field, or the empty
string when the field is absent. A present empty string is falsy in the
source, so absent and empty collapse, exactly as `||` does. -/
def getField (body : Payload) (k : String) : String :=
  (body.lookup k).getD ""

/-- The row appended to the sheet by the register handler: the ISO timestamp,
the twenty selected field values in source order, and the serialization of
the whole body (`JSON.stringify(body)`, embedded as the payload itself, which
the serialization determines and is determined by). -/
structure SheetRow where
  timestamp : String
  fields : List String
  payloadJson : Payload
deriving Repr, DecidableEq

/-- The flattening of the request body into a row, in source order. -/
def buildRow (timestamp : String) (body : Payload) : SheetRow :=
  { timestamp := timestamp
    fields :=
      [ getField body "email", getField body "fullName",
        getField body "secondaryEmail", getField body "phone",
        getField body "organization", getField body "city",
        getField body "startupName", getField body "website",
        getField body "industry", getField body "socialImpact",
        getField body "iitkgpAffiliation", getField body "aiMlCore",
        getField body "tis", getField body "problem",
        getField body "solution", getField body "market",
        getField body "traction", getField body "revenue",
        getField body "extra" ]
    payloadJson := body }

/-- Outcome of `POST /api/register`, by response: 500 SPREADSHEET_ID not
configured, 400 email required, 200 ok, and the catch-all 500 Failed to save
registration (the sheets client or the append call threw). -/
inductive RegisterResp
  | configError
  | missingIdentity
  | ok
  | storeFailure
deriving Repr, DecidableEq

/-- `POST /api/register`. `configured` tells whether SPREADSHEET_ID is set;
`storeOk` tells whether the awaited append to the sheet resolved. The second
component is the row handed to the Submission Store collaborator, when one
was. -/
def registerHandler (configured : Bool) (timestamp : String) (body : Payload)
    (storeOk : Bool) : RegisterResp × Option SheetRow :=
  if ¬ configured then (.configError, none)
  else if getField body "email" = "" then (.missingIdentity, none)
  else
    let row := buildRow timestamp body
    if storeOk then (.ok, some row) else (.storeFailure, some row)

/-- One call to the send handler in a sequence of issuance attempts for a
fixed identity: its arrival time, the code the generator drew, and whether
the outbound email resolved. -/
structure SendCall where
  now : Int
  code : String
  emailOk : Bool
deriving Repr, DecidableEq

/-- Whether a send response stored the freshly generated code: exactly the
two outcomes reached after both rate checks pass, when `otpStore.set(email,
entry)` has run. -/
def storesCode : SendResp → Bool
  | .ok => true
  | .sendFailure => true
  | _ => false

/-- The identity's entry after a sequence of send-handler calls (all with a
syntactically valid email, as issuance requires). -/
def applySends (cfg : OtpConfig) (emailAddr : String) (store : Store) :
    List SendCall → Store
  | [] => store
  | c :: rest =>
    applySends cfg emailAddr
      (sendHandler cfg c.now store c.code c.emailOk emailAddr true).store rest

/-- The code of the most recent call of the sequence that stored its code
(`none` when no call did). -/
def lastIssued (cfg : OtpConfig) (emailAddr : String) (store : Store) :
    List SendCall → Option String
  | [] => none
  | c :: rest =>
    let out := sendHandler cfg c.now store c.code c.emailOk emailAddr true
    match lastIssued cfg emailAddr out.store rest with
    | some s => some s
    | none => if storesCode out.resp then some c.code else none

/-! Helper lemmas shared by the claim theorems. -/

theorem resetWindow_code (cfg : OtpConfig) (now : Int) (e : OtpRecord) :
    (resetWindow cfg now e).code = e.code := by
  unfold resetWindow; split <;> rfl

theorem resetWindow_lastSentAt (cfg : OtpConfig) (now : Int) (e : OtpRecord) :
    (resetWindow cfg now e).lastSentAt = e.lastSentAt := by
  unfold resetWindow; split <;> rfl

theorem resetWindow_expiresAt (cfg : OtpConfig) (now : Int) (e : OtpRecord) :
    (resetWindow cfg now e).expiresAt = e.expiresAt := by
  unfold resetWindow; split <;> rfl

/-- When a send stores its code (response ok or the notifier threw), the
resulting entry is determined: the fresh code, expiry `now + TTL`, last-sent
`now`, and the post-reset window with its count incremented; and the message
handed to the notifier carries the code. -/
theorem sendHandler_stores_eq (cfg : OtpConfig) (now : Int) (store : Store)
    (code : String) (emailOk : Bool) (addr : String)
    (h : storesCode (sendHandler cfg now store code emailOk addr true).resp = true) :
    (sendHandler cfg now store code emailOk addr true).store =
      some { code := some code
             expiresAt := now + (cfg.otpTtlSeconds : Int) * 1000
             lastSentAt := now
             windowStartAt :=
               (resetWindow cfg now (store.getD (freshEntry now))).windowStartAt
             sentCountInWindow :=
               (resetWindow cfg now (store.getD (freshEntry now))).sentCountInWindow + 1 }
    ∧ (sendHandler cfg now store code emailOk addr true).email =
        some (mkOtpEmail addr cfg code) := by
  unfold sendHandler at h ⊢
  simp only [not_true_eq_false, if_false] at h ⊢
  split_ifs at h ⊢ with h1 h2 h3
  all_goals first
  | exact ⟨rfl, rfl⟩
  | simp [storesCode] at h

/-- A send that does not store its code leaves the stored code unchanged
(the in-place window reset never touches the `code` field, and a fresh entry
is not persisted on the early returns). -/
theorem sendHandler_not_stores_code (cfg : OtpConfig) (now : Int) (store : Store)
    (code : String) (emailOk : Bool) (addr : String)
    (h : storesCode (sendHandler cfg now store code emailOk addr true).resp = false) :
    storedCode (sendHandler cfg now store code emailOk addr true).store =
      storedCode store := by
  unfold sendHandler at h ⊢
  simp only [not_true_eq_false, if_false] at h ⊢
  split_ifs at h ⊢ with h1 h2 h3
  all_goals cases store with
    | none => simp_all [storedCode, storesCode]
    | some e => simp_all [storedCode, storesCode, resetWindow_code]

/-- A verify call only answers ok when the candidate is the stored code. -/
theorem verifyHandler_ok_storedCode (now : Int) (store : Store) (email otp : String)
    (h : (verifyHandler now store email otp).1 = VerifyResp.ok) :
    storedCode store = some otp := by
  cases store with
  | none =>
    unfold verifyHandler at h
    split at h
    · simp at h
    · simp at h
  | some entry =>
    simp only [storedCode]
    unfold verifyHandler at h
    split at h
    · simp at h
    · simp only at h
      cases hc : entry.code with
      | none => rw [hc] at h; simp at h
      | some c =>
        rw [hc] at h
        simp only [gt_iff_lt] at h
        split_ifs at h with h1 h2 h3
        all_goals simp_all

/-! The claim theorems. -/

/-- C2 counterexample: the claim asserts that whenever a record with a
stored code exists and `now` exceeds the expiry, verify answers Expired.
At an entry holding the empty-string code (expired at time 5) the handler
instead answers NotFound: the source guard on the nullable code field is a
truthiness test, and the empty string is falsy. -/
theorem C2_verify_failure_order_cex :
    (verifyHandler 5 (some ⟨some "", 0, 0, 0, 1⟩) "someone" "123456").1 =
        VerifyResp.notFound ∧
    (verifyHandler 5 (some ⟨some "", 0, 0, 0, 1⟩) "someone" "123456").1 ≠
        VerifyResp.expired := by
  exact ⟨rfl, by decide⟩

/-- C2 (amended): for every identity and non-empty candidate code, verify
fails with NotFound when no record exists or the stored code is falsy (null
or the empty string), otherwise with Expired when `now` exceeds the stored
expiry (even if the candidate matches), otherwise with Mismatch when the
candidate differs from the stored code as a string; the checks apply in
that order. -/
theorem C2_verify_failure_order (now : Int) (store : Store) (email otp : String)
    (he : email ≠ "") (ho : otp ≠ "") :
    ((storedCode store = none ∨ storedCode store = some "") →
      (verifyHandler now store email otp).1 = VerifyResp.notFound) ∧
    (∀ e c, store = some e → e.code = some c → c ≠ "" → now > e.expiresAt →
      (verifyHandler now store email otp).1 = VerifyResp.expired) ∧
    (∀ e c, store = some e → e.code = some c → c ≠ "" → ¬ now > e.expiresAt →
      otp ≠ c →
      (verifyHandler now store email otp).1 = VerifyResp.mismatch) := by
  have hg : ¬ (email = "" ∨ otp = "") := not_or.mpr ⟨he, ho⟩
  unfold verifyHandler
  rw [if_neg hg]
  refine ⟨?_, ?_, ?_⟩
  · intro h0
    cases store with
    | none => rfl
    | some e =>
      simp only [storedCode] at h0
      simp only
      cases h0 with
      | inl h0 => rw [h0]
      | inr h0 =>
        rw [h0]
        simp only
        rw [if_pos trivial]
  · intro e c hse hc hcne hexp
    subst hse
    simp only
    rw [hc]
    simp only
    rw [if_neg hcne, if_pos hexp]
  · intro e c hse hc hcne hexp hne
    subst hse
    simp only
    rw [hc]
    simp only
    rw [if_neg hcne, if_neg hexp, if_pos hne]

theorem C2_verify_failure_order_w :
    (verifyHandler 5 none "someone" "123456").1 = VerifyResp.notFound :=
  (C2_verify_failure_order 5 none "someone" "123456" (by decide) (by decide)).1
    (Or.inl rfl)

/-- C3: when the configured maximum number of issuances have already
happened inside the current (unelapsed) rate window, the next send for the
identity is rejected with the rate-limit error. -/
theorem C3_rate_limited (cfg : OtpConfig) (now : Int) (e : OtpRecord) (code : String)
    (emailOk : Bool) (addr : String)
    (hwin : ¬ now - e.windowStartAt > (cfg.rateWindowSeconds : Int) * 1000)
    (hcap : e.sentCountInWindow ≥ cfg.rateMaxPerWindow) :
    (sendHandler cfg now (some e) code emailOk addr true).resp =
      SendResp.rateLimited := by
  unfold sendHandler
  simp only [not_true_eq_false, if_false, Option.getD_some]
  have hr : resetWindow cfg now e = e := by
    unfold resetWindow
    rw [if_neg hwin]
  rw [hr, if_pos hcap]

theorem C3_rate_limited_w :
    (sendHandler defaultConfig 1000 (some ⟨none, 0, 0, 0, 5⟩) "111111" true
      "user@example.com" true).resp = SendResp.rateLimited :=
  C3_rate_limited defaultConfig 1000 ⟨none, 0, 0, 0, 5⟩ "111111" true
    "user@example.com" (by decide) (by decide)

/-- C4: a send arriving strictly less than the minimum resend interval after
the identity's last issuance fails with the wait error, provided the window
cap (checked first) has not been reached. -/
theorem C4_too_soon (cfg : OtpConfig) (now : Int) (e : OtpRecord) (code : String)
    (emailOk : Bool) (addr : String)
    (hcap : (resetWindow cfg now e).sentCountInWindow < cfg.rateMaxPerWindow)
    (hsoon : now - e.lastSentAt < (cfg.minResendIntervalSeconds : Int) * 1000) :
    (sendHandler cfg now (some e) code emailOk addr true).resp =
      SendResp.tooSoon := by
  unfold sendHandler
  simp only [not_true_eq_false, if_false, Option.getD_some]
  have h1 : ¬ ((resetWindow cfg now e).sentCountInWindow ≥ cfg.rateMaxPerWindow) := by
    omega
  rw [if_neg h1, resetWindow_lastSentAt, if_pos hsoon]

theorem C4_too_soon_w :
    (sendHandler defaultConfig 1000 (some ⟨none, 0, 950, 0, 1⟩) "222222" true
      "user@example.com" true).resp = SendResp.tooSoon :=
  C4_too_soon defaultConfig 1000 ⟨none, 0, 950, 0, 1⟩ "222222" true
    "user@example.com" (by decide) (by decide)

/-- C7: a verify call that does not succeed returns the identity's store
entry exactly as it found it: no branch before the success branch mutates
the record. -/
theorem C7_failed_verify_no_mutation (now : Int) (store : Store) (email otp : String)
    (h : (verifyHandler now store email otp).1 ≠ VerifyResp.ok) :
    (verifyHandler now store email otp).2 = store := by
  by_cases hg : email = "" ∨ otp = ""
  · unfold verifyHandler
    rw [if_pos hg]
  · unfold verifyHandler at h ⊢
    rw [if_neg hg] at h ⊢
    cases store with
    | none => rfl
    | some entry =>
      simp only at h ⊢
      cases hc : entry.code with
      | none => rfl
      | some c =>
        simp only
        split_ifs with h1 h2 h3
        · rfl
        · rfl
        · rfl
        · exfalso
          rw [hc] at h
          simp only at h
          rw [if_neg h1, if_neg h2, if_neg h3] at h
          exact h rfl

theorem C7_failed_verify_no_mutation_w :
    (verifyHandler 5 (some ⟨some "123456", 700, 0, 0, 1⟩) "someone" "999999").2 =
      some ⟨some "123456", 700, 0, 0, 1⟩ :=
  C7_failed_verify_no_mutation 5 (some ⟨some "123456", 700, 0, 0, 1⟩)
    "someone" "999999" (by decide)

/-- C8: a successful verify rewrites the entry with only the `code` field
cleared; expiry, last-sent, window start and window count are those of the
entry before the call. -/
theorem C8_success_clears_only_code (now : Int) (e : OtpRecord) (email otp : String)
    (hok : (verifyHandler now (some e) email otp).1 = VerifyResp.ok) :
    (verifyHandler now (some e) email otp).2 =
      some { code := none, expiresAt := e.expiresAt, lastSentAt := e.lastSentAt,
             windowStartAt := e.windowStartAt,
             sentCountInWindow := e.sentCountInWindow } := by
  by_cases hg : email = "" ∨ otp = ""
  · unfold verifyHandler at hok
    rw [if_pos hg] at hok
    simp at hok
  · unfold verifyHandler at hok ⊢
    rw [if_neg hg] at hok ⊢
    simp only at hok ⊢
    cases hc : e.code with
    | none =>
      rw [hc] at hok
      simp at hok
    | some c =>
      simp only
      split_ifs with h1 h2 h3
      · exfalso
        rw [hc] at hok
        simp only at hok
        rw [if_pos h1] at hok
        simp at hok
      · exfalso
        rw [hc] at hok
        simp only at hok
        rw [if_neg h1, if_pos h2] at hok
        simp at hok
      · exfalso
        rw [hc] at hok
        simp only at hok
        rw [if_neg h1, if_neg h2, if_pos h3] at hok
        simp at hok
      · rfl

theorem C8_success_clears_only_code_w :
    (verifyHandler 5 (some ⟨some "123456", 700, 3, 2, 4⟩) "someone" "123456").2 =
      some ⟨none, 700, 3, 2, 4⟩ :=
  C8_success_clears_only_code 5 ⟨some "123456", 700, 3, 2, 4⟩ "someone" "123456"
    (by decide)

/-- Verifying the stored code of an entry that holds one succeeds before the
expiry instant and clears exactly the code. -/
theorem verify_active_entry_ok (t : Int) (email c : String) (exp last ws : Int)
    (cnt : Nat) (he : email ≠ "") (hc : c ≠ "") (ht : ¬ t > exp) :
    verifyHandler t (some ⟨some c, exp, last, ws, cnt⟩) email c =
      (VerifyResp.ok, some ⟨none, exp, last, ws, cnt⟩) := by
  unfold verifyHandler
  rw [if_neg (not_or.mpr ⟨he, hc⟩)]
  simp only
  rw [if_neg hc, if_neg ht, if_neg (not_ne_iff.mpr rfl)]

/-- Verifying against an entry whose code has been cleared answers NotFound,
whatever the candidate. -/
theorem verify_cleared_notFound (t : Int) (email otp : String) (exp last ws : Int)
    (cnt : Nat) (he : email ≠ "") (ho : otp ≠ "") :
    (verifyHandler t (some ⟨none, exp, last, ws, cnt⟩) email otp).1 =
      VerifyResp.notFound := by
  unfold verifyHandler
  rw [if_neg (not_or.mpr ⟨he, ho⟩)]

/-- Every selectable character is one of the ten digit characters. -/
theorem digitChar_mem (d : Fin 10) : digitChar d ∈ digitChars := by
  revert d; decide

/-- C1: once a send has stored code `c`, a first verify with `c` before the
expiry succeeds, and a second verify with `c` and no issuance in between
fails with NotFound: a verified code is single use. -/
theorem C1_verified_code_single_use (cfg : OtpConfig) (now t1 t2 : Int)
    (store : Store) (code addr email : String) (emailOk : Bool)
    (he : email ≠ "") (hc : code ≠ "")
    (hok : storesCode (sendHandler cfg now store code emailOk addr true).resp = true)
    (ht1 : t1 ≤ now + (cfg.otpTtlSeconds : Int) * 1000) :
    (verifyHandler t1 (sendHandler cfg now store code emailOk addr true).store
        email code).1 = VerifyResp.ok ∧
    (verifyHandler t2
        (verifyHandler t1 (sendHandler cfg now store code emailOk addr true).store
          email code).2 email code).1 = VerifyResp.notFound := by
  have hst := (sendHandler_stores_eq cfg now store code emailOk addr hok).1
  rw [hst, verify_active_entry_ok t1 email code _ _ _ _ he hc (not_lt.mpr ht1)]
  exact ⟨rfl, verify_cleared_notFound t2 email code _ _ _ _ he hc⟩

theorem C1_verified_code_single_use_w :
    (verifyHandler 1500000
        (sendHandler defaultConfig 1000000 none "042913" true "user@example.com"
          true).store "user@example.com" "042913").1 = VerifyResp.ok ∧
    (verifyHandler 1700000
        (verifyHandler 1500000
          (sendHandler defaultConfig 1000000 none "042913" true "user@example.com"
            true).store "user@example.com" "042913").2
        "user@example.com" "042913").1 = VerifyResp.notFound :=
  C1_verified_code_single_use defaultConfig 1000000 1500000 1700000 none "042913"
    "user@example.com" "user@example.com" true (by decide) (by decide) (by decide)
    (by decide)

/-- C10: when the outbound email throws, the store has already been mutated:
the generated code is stored with its expiry, the window count is
incremented and the last-sent instant is `now`, and a later verify with that
code before expiry succeeds, so the failed attempt counts against the cap
and the resend interval. -/
theorem C10_notifier_failure_counts (cfg : OtpConfig) (now t1 : Int)
    (store : Store) (code addr email : String)
    (he : email ≠ "") (hc : code ≠ "")
    (hfail : (sendHandler cfg now store code false addr true).resp =
      SendResp.sendFailure)
    (ht1 : t1 ≤ now + (cfg.otpTtlSeconds : Int) * 1000) :
    (sendHandler cfg now store code false addr true).store =
      some { code := some code
             expiresAt := now + (cfg.otpTtlSeconds : Int) * 1000
             lastSentAt := now
             windowStartAt :=
               (resetWindow cfg now (store.getD (freshEntry now))).windowStartAt
             sentCountInWindow :=
               (resetWindow cfg now (store.getD (freshEntry now))).sentCountInWindow
                 + 1 } ∧
    (verifyHandler t1 (sendHandler cfg now store code false addr true).store
        email code).1 = VerifyResp.ok := by
  have hst := (sendHandler_stores_eq cfg now store code false addr
    (by rw [hfail]; rfl)).1
  refine ⟨hst, ?_⟩
  rw [hst, verify_active_entry_ok t1 email code _ _ _ _ he hc (not_lt.mpr ht1)]

theorem C10_notifier_failure_counts_w :
    (sendHandler defaultConfig 1000000 none "042913" false "user@example.com"
        true).store =
      some { code := some "042913", expiresAt := 1600000, lastSentAt := 1000000,
             windowStartAt := 1000000, sentCountInWindow := 1 } ∧
    (verifyHandler 1500000
        (sendHandler defaultConfig 1000000 none "042913" false "user@example.com"
          true).store "user@example.com" "042913").1 = VerifyResp.ok := by
  have h := C10_notifier_failure_counts defaultConfig 1000000 1500000 none "042913"
    "user@example.com" "user@example.com" (by decide) (by decide) (by decide)
    (by decide)
  exact ⟨by rw [h.1]; rfl, h.2⟩

/-- C5: a successful send stores a code of exactly the configured length
made only of digit characters (every digit sequence of that length is a
possible draw, so leading zeros are possible), sets expiry to `now + TTL`,
records the issuance time, increments the window count by one, and hands the
code to the notifier in the message. -/
theorem C5_issue_success_effects (cfg : OtpConfig) (now : Int) (store : Store)
    (rand : Nat → Fin 10) (addr : String) (emailOk : Bool)
    (hok : (sendHandler cfg now store (generateOtp cfg.otpLength rand) emailOk
      addr true).resp = SendResp.ok) :
    (generateOtp cfg.otpLength rand).length = cfg.otpLength ∧
    (∀ ch ∈ (generateOtp cfg.otpLength rand).data, ch ∈ digitChars) ∧
    (∀ ds : List (Fin 10), ds.length = cfg.otpLength →
      ∃ r : Nat → Fin 10, generateOtp cfg.otpLength r = ⟨ds.map digitChar⟩) ∧
    (sendHandler cfg now store (generateOtp cfg.otpLength rand) emailOk addr
        true).store =
      some { code := some (generateOtp cfg.otpLength rand)
             expiresAt := now + (cfg.otpTtlSeconds : Int) * 1000
             lastSentAt := now
             windowStartAt :=
               (resetWindow cfg now (store.getD (freshEntry now))).windowStartAt
             sentCountInWindow :=
               (resetWindow cfg now (store.getD (freshEntry now))).sentCountInWindow
                 + 1 } ∧
    (sendHandler cfg now store (generateOtp cfg.otpLength rand) emailOk addr
        true).email = some (mkOtpEmail addr cfg (generateOtp cfg.otpLength rand)) := by
  have hst := sendHandler_stores_eq cfg now store (generateOtp cfg.otpLength rand)
    emailOk addr (by rw [hok]; rfl)
  refine ⟨?_, ?_, ?_, hst.1, hst.2⟩
  · simp [generateOtp, String.length]
  · intro ch hch
    have hd : (generateOtp cfg.otpLength rand).data =
        (List.range cfg.otpLength).map (fun i => digitChar (rand i)) := rfl
    rw [hd] at hch
    obtain ⟨i, _, rfl⟩ := List.mem_map.mp hch
    exact digitChar_mem (rand i)
  · intro ds hlen
    refine ⟨fun i => ds.getD i 0, ?_⟩
    unfold generateOtp
    congr 1
    apply List.ext_getElem
    · simp [hlen]
    · intro i h1 h2
      simp only [List.getElem_map, List.getElem_range]
      rw [List.getD_eq_getElem]

theorem C5_issue_success_effects_w :
    (generateOtp defaultConfig.otpLength (fun _ => 0)).length =
      defaultConfig.otpLength ∧
    (sendHandler defaultConfig 1000000 none
        (generateOtp defaultConfig.otpLength (fun _ => 0)) true "user@example.com"
        true).email =
      some (mkOtpEmail "user@example.com" defaultConfig
        (generateOtp defaultConfig.otpLength (fun _ => 0))) := by
  have h := C5_issue_success_effects defaultConfig 1000000 none (fun _ => 0)
    "user@example.com" true (by decide)
  exact ⟨h.1, h.2.2.2.2⟩

/-- A send that stores its code leaves exactly that code as the stored one. -/
theorem sendHandler_stores_storedCode (cfg : OtpConfig) (now : Int) (store : Store)
    (code : String) (emailOk : Bool) (addr : String)
    (h : storesCode (sendHandler cfg now store code emailOk addr true).resp = true) :
    storedCode (sendHandler cfg now store code emailOk addr true).store =
      some code := by
  rw [(sendHandler_stores_eq cfg now store code emailOk addr h).1]
  rfl

/-- After a sequence of sends, the stored code is the code of the most
recent send that stored one, or the initial stored code when none did. -/
theorem storedCode_applySends (cfg : OtpConfig) (addr : String) (l : List SendCall) :
    ∀ store : Store, storedCode (applySends cfg addr store l) =
      match lastIssued cfg addr store l with
      | some c => some c
      | none => storedCode store := by
  induction l with
  | nil => intro store; rfl
  | cons c rest ih =>
    intro store
    simp only [applySends, lastIssued]
    rw [ih]
    cases hR : lastIssued cfg addr
        (sendHandler cfg c.now store c.code c.emailOk addr true).store rest with
    | some s => rfl
    | none =>
      cases hS : storesCode (sendHandler cfg c.now store c.code c.emailOk addr
          true).resp with
      | true =>
        simp only [if_pos]
        exact sendHandler_stores_storedCode cfg c.now store c.code c.emailOk addr hS
      | false =>
        simp only [if_neg]
        exact sendHandler_not_stores_code cfg c.now store c.code c.emailOk addr hS

/-- C6: at most one code is simultaneously accepted for an identity: any two
successful verifies against one store state agree on the candidate, and
starting from no entry, after any sequence of issuance calls only the code
of the most recent stored issuance can make verify succeed. -/
theorem C6_at_most_one_active_code :
    (∀ (store : Store) (n1 n2 : Int) (em1 em2 c1 c2 : String) (s1 s2 : Store),
      verifyHandler n1 store em1 c1 = (VerifyResp.ok, s1) →
      verifyHandler n2 store em2 c2 = (VerifyResp.ok, s2) → c1 = c2) ∧
    (∀ (cfg : OtpConfig) (addr email otp : String) (l : List SendCall)
      (now : Int) (s' : Store),
      verifyHandler now (applySends cfg addr none l) email otp =
        (VerifyResp.ok, s') →
      lastIssued cfg addr none l = some otp) := by
  constructor
  · intro store n1 n2 em1 em2 c1 c2 s1 s2 h1 h2
    have k1 := verifyHandler_ok_storedCode n1 store em1 c1 (by rw [h1])
    have k2 := verifyHandler_ok_storedCode n2 store em2 c2 (by rw [h2])
    rw [k1] at k2
    exact Option.some.inj k2
  · intro cfg addr email otp l now s' hok
    have h1 : (verifyHandler now (applySends cfg addr none l) email otp).1 =
        VerifyResp.ok := by rw [hok]
    have h2 := verifyHandler_ok_storedCode now (applySends cfg addr none l)
      email otp h1
    have h3 := storedCode_applySends cfg addr l none
    rw [h2] at h3
    cases hL : lastIssued cfg addr none l with
    | none => rw [hL] at h3; simp [storedCode] at h3
    | some c => rw [hL] at h3; simp only at h3; rw [← h3]

theorem C6_at_most_one_active_code_w :
    lastIssued defaultConfig "user@example.com" none
      [⟨1000000, "111111", true⟩, ⟨1070000, "222222", true⟩] = some "222222" :=
  C6_at_most_one_active_code.2 defaultConfig "user@example.com" "user@example.com"
    "222222" [⟨1000000, "111111", true⟩, ⟨1070000, "222222", true⟩] 1200000
    (some ⟨none, 1670000, 1070000, 1000000, 2⟩) (by decide)

/-- C9: with the spreadsheet configured, submit fails with the missing
identity error exactly when the payload's email field is absent or empty;
otherwise the payload reaches the Submission Store unchanged inside the
appended row, and the call succeeds when the append does. -/
theorem C9_submit_requires_identity (timestamp : String) (body : Payload)
    (storeOk : Bool) :
    ((registerHandler true timestamp body storeOk).1 =
        RegisterResp.missingIdentity ↔ getField body "email" = "") ∧
    (getField body "email" ≠ "" →
      (registerHandler true timestamp body storeOk).2 =
          some (buildRow timestamp body) ∧
      (buildRow timestamp body).payloadJson = body ∧
      (storeOk = true →
        (registerHandler true timestamp body storeOk).1 = RegisterResp.ok)) := by
  unfold registerHandler
  simp only [not_true_eq_false, if_false]
  by_cases hemail : getField body "email" = ""
  · rw [if_pos hemail]
    exact ⟨by simp [hemail], fun hne => absurd hemail hne⟩
  · rw [if_neg hemail]
    refine ⟨?_, fun _ => ⟨?_, rfl, fun hs => ?_⟩⟩
    · cases storeOk <;> simp [hemail]
    · cases storeOk <;> rfl
    · subst hs; rfl

theorem C9_submit_requires_identity_w :
    ((registerHandler true "2026-01-01T00:00:00Z" [("phone", "1")] true).1 =
        RegisterResp.missingIdentity ↔
      getField [("phone", "1")] "email" = "") ∧
    (registerHandler true "2026-01-01T00:00:00Z" [("email", "user@example.com")]
        true).1 = RegisterResp.ok :=
  ⟨(C9_submit_requires_identity "2026-01-01T00:00:00Z" [("phone", "1")] true).1,
    ((C9_submit_requires_identity "2026-01-01T00:00:00Z"
      [("email", "user@example.com")] true).2 (by decide)).2.2 rfl⟩

end Empresario
